import Mathlib

/-!
Verification development for sioku, a small IOKit-based USB client library
(src/sioku.c and src/Sioku.c, two near-identical variants of one module).

The C code is shallowly embedded: pure functions become Lean functions on
Nat (machine integers are modelled as Nat with explicit `% 2^w` where the C
performs a narrowing conversion); calls into the host USB subsystem (IOKit)
are modelled by explicit environments recording the outcome of each call,
and the side effects of a run are collected into a trace of `Act` events so
that resource-release discipline can be stated and checked.
-/

/-! ## IOKit return codes

Concrete values from IOKit's IOReturn.h / IOUSBLib.h, as used by the
`switch` in `sioku_transfer_state_from_iokit`.  Only their distinctness
matters to the classification claims. -/

/-- IOReturn kIOReturnSuccess, the success completion code (0). -/
def kIOReturnSuccess : Nat := 0

/-- IOReturn kIOReturnAborted, iokit_common_err(0x2eb). -/
def kIOReturnAborted : Nat := 0xE00002EB

/-- IOReturn kIOReturnTimeout, iokit_common_err(0x2d6). -/
def kIOReturnTimeout : Nat := 0xE00002D6

/-- IOReturn kIOUSBTransactionTimeout, iokit_usb_err(0x51). -/
def kIOUSBTransactionTimeout : Nat := 0xE0004051

/-- IOReturn kIOUSBPipeStalled, iokit_usb_err(0x4f). -/
def kIOUSBPipeStalled : Nat := 0xE000404F

/-- IOReturn kIOReturnNotPermitted, iokit_common_err(0x2e2); an example of a
code outside the benign allow-list and distinct from the stall code. -/
def kIOReturnNotPermitted : Nat := 0xE00002E2

/-- UINT32_MAX, the sentinel length of the fixed error transfer result. -/
def UINT32_MAX : Nat := 4294967295

/-! ## Transfer result taxonomy (sioku.h / sioku.c lines 80-109,
Sioku.c lines 83-111) -/

/-- Embeds `enum SiokuTransferState` from sioku.h (identical to
`SiokuTransferState` in Sioku.h up to the capitalisation of `Ok`). -/
inductive SiokuTransferState where
  | Ok
  | Stall
  | Error
deriving DecidableEq, Repr

/-- Embeds `sioku_transfer_state_from_iokit` (sioku.c lines 80-95).  The C
`switch` falls through the four benign cases to `Ok`, maps the stalled-pipe
code to `Stall`, and everything else to `Error`. -/
def sioku_transfer_state_from_iokit (error : Nat) : SiokuTransferState :=
  if error = kIOReturnSuccess ∨ error = kIOReturnAborted ∨
      error = kIOReturnTimeout ∨ error = kIOUSBTransactionTimeout then
    SiokuTransferState.Ok
  else if error = kIOUSBPipeStalled then
    SiokuTransferState.Stall
  else
    SiokuTransferState.Error

/-- Embeds `sioku_transfer_state_from_error` (Sioku.c lines 83-99), the
Sioku.c variant; its `switch` has exactly the same cases and results. -/
def sioku_transfer_state_from_error (error : Nat) : SiokuTransferState :=
  if error = kIOReturnSuccess ∨ error = kIOReturnAborted ∨
      error = kIOReturnTimeout ∨ error = kIOUSBTransactionTimeout then
    SiokuTransferState.Ok
  else if error = kIOUSBPipeStalled then
    SiokuTransferState.Stall
  else
    SiokuTransferState.Error

/-- Embeds `struct SiokuTransferResult`: a classified state plus a
`uint32_t` byte count. -/
structure SiokuTransferResult where
  state : SiokuTransferState
  length : Nat
deriving DecidableEq, Repr

/-- Embeds `sioku_transfer_result` (sioku.c lines 102-109): pairs the
classification of the completion code with the reported length. -/
def sioku_transfer_result (error : Nat) (length : Nat) : SiokuTransferResult :=
  ⟨sioku_transfer_state_from_iokit error, length⟩

/-- Embeds `sioku_transfer_result_create` (Sioku.c lines 103-111), the
Sioku.c variant of the result constructor. -/
def sioku_transfer_result_create (error : Nat) (length : Nat) :
    SiokuTransferResult :=
  ⟨sioku_transfer_state_from_error error, length⟩

/-- Embeds `TRANSFER_RESULT_ERROR` (sioku.c lines 97-100), equally
`s_error_transfer_result` (Sioku.c lines 251-254): the fixed error outcome
with the sentinel length. -/
def TRANSFER_RESULT_ERROR : SiokuTransferResult :=
  ⟨SiokuTransferState.Error, UINT32_MAX⟩

/-! ## Control transfer request construction (sioku.c lines 250-276 and
291-328; Sioku.c lines 249-330) -/

/-- Models the `void *data` argument of the transfer functions: the C NULL
pointer, a caller-supplied buffer (with an abstract address), or the shared
scratch buffer `g_null_buffer` / `s_null_buffer`. -/
inductive DataPtr where
  | null
  | caller (addr : Nat)
  | scratch
deriving DecidableEq, Repr

/-- Size of the static scratch buffer `g_null_buffer[0x1000]`. -/
def NULL_BUFFER_SIZE : Nat := 0x1000

/-- Initial contents of the static scratch buffer (`= {0}` in C). -/
def g_null_buffer_initial : List Nat := List.replicate NULL_BUFFER_SIZE 0

/-- Embeds the preamble shared verbatim by `sioku_transfer` (sioku.c lines
257-260) and `sioku_transfer_async` (sioku.c lines 298-301), equally the
Sioku.c variants: if a positive length arrives with a NULL data pointer,
`memset` the scratch buffer to zero and point `data` at it; otherwise both
the pointer and the scratch buffer are left untouched.  The first argument
is the scratch buffer's current contents; the result is the effective data
pointer and the scratch buffer's new contents. -/
def sioku_transfer_substitute (g_null_buffer : List Nat) (data : DataPtr)
    (length : Nat) : DataPtr × List Nat :=
  if 0 < length ∧ data = DataPtr.null then
    (DataPtr.scratch, List.replicate NULL_BUFFER_SIZE 0)
  else
    (data, g_null_buffer)

/-- `SIOKU_DEFAULT_USB_TIMEOUT` (sioku.h), equally
`sioku_default_usb_timeout` (Sioku.h). -/
def SIOKU_DEFAULT_USB_TIMEOUT : Nat := 6

/-- Models the C implicit narrowing conversion to `uint16_t` applied to the
arguments of `OSSwapLittleToHostInt16`. -/
def toUInt16Nat (x : Nat) : Nat := x % 65536

/-- Models `OSSwapLittleToHostInt16` on the little-endian host the code
targets: the identity on its (already 16-bit) argument. -/
def OSSwapLittleToHostInt16 (x : Nat) : Nat := x

/-- Embeds `IOUSBDevRequestTO` as populated by the transfer functions. -/
structure IOUSBDevRequestTO where
  wLenDone : Nat
  pData : DataPtr
  bRequest : Nat
  bmRequestType : Nat
  wLength : Nat
  wValue : Nat
  wIndex : Nat
  completionTimeout : Nat
  noDataTimeout : Nat
deriving DecidableEq, Repr

/-- Embeds the request-descriptor construction shared verbatim by
`sioku_transfer` (sioku.c lines 262-271) and `sioku_transfer_async`
(sioku.c lines 303-312), equally the Sioku.c variants.  Fields appear in
the structure's declaration order: wLenDone, pData, bRequest,
bmRequestType, wLength, wValue, wIndex, completionTimeout, noDataTimeout.
`request_type` and `request` are `uint8_t` parameters, `value` and `index`
are `uint16_t` parameters, `length` is the `size_t` parameter narrowed to
`uint16_t` at the swap call. -/
def sioku_transfer_request_to (request_type request value index : Nat)
    (data : DataPtr) (length : Nat) : IOUSBDevRequestTO :=
  ⟨0, data, request % 256, request_type % 256,
    OSSwapLittleToHostInt16 (toUInt16Nat length),
    OSSwapLittleToHostInt16 (toUInt16Nat value),
    OSSwapLittleToHostInt16 (toUInt16Nat index),
    SIOKU_DEFAULT_USB_TIMEOUT, SIOKU_DEFAULT_USB_TIMEOUT⟩

/-- Outcome of the one host call `DeviceRequestTO` makes in the synchronous
transfer: the IOReturn completion code and the `wLenDone` byte count the
transport writes back (a `uint32_t`). -/
structure DeviceRequestEnv where
  error : Nat
  wLenDone : Nat

/-- Embeds `sioku_transfer` (sioku.c lines 252-276), equally
`sioku_client_transfer` (Sioku.c lines 256-280): substitute the scratch
buffer if needed, build the request descriptor, submit it synchronously,
and classify the completion.  Returns the transfer result, the request
descriptor as submitted to `DeviceRequestTO`, and the scratch buffer's new
contents. -/
def sioku_transfer (env : DeviceRequestEnv) (g_null_buffer : List Nat)
    (request_type request value index : Nat) (data : DataPtr)
    (length : Nat) : SiokuTransferResult × IOUSBDevRequestTO × List Nat :=
  let sub := sioku_transfer_substitute g_null_buffer data length
  let rto := sioku_transfer_request_to request_type request value index
    sub.1 length
  (sioku_transfer_result env.error (env.wLenDone % 4294967296), rto, sub.2)

/-- Embeds `async_transfer_callback` (sioku.c lines 278-289) in the case of
a non-NULL result slot, as set up by `sioku_transfer_async`: the low 32
bits of the context argument are `memcpy`ed into the result's length and
the completion code is classified into its state.  (With a NULL slot the C
callback only stops the run loop; `sioku_transfer_async` always passes a
valid slot.) -/
def async_transfer_callback (error arg : Nat) : SiokuTransferResult :=
  ⟨sioku_transfer_state_from_iokit error, arg % 4294967296⟩

/-- Outcomes of the host calls made by the asynchronous transfer: whether
`DeviceRequestAsyncTO` returns success, whether `USBDeviceAbortPipeZero`
returns success, and the completion code and byte-count argument the
transport delivers to the callback when the run loop runs. -/
structure AsyncEnv where
  submitOk : Bool
  abortOk : Bool
  callbackError : Nat
  callbackArg : Nat

/-- Embeds `sioku_transfer_async` (sioku.c lines 291-328), equally
`sioku_client_transfer_async` (Sioku.c lines 294-330): substitute the
scratch buffer if needed, build the request descriptor, submit it
asynchronously (on failure return the fixed error outcome at once), sleep
for `timeout` ms, abort pipe zero (on failure return the fixed error
outcome), then run the run loop until the callback fills the result slot.
Returns the result, the submitted request descriptor, and the scratch
buffer's new contents. -/
def sioku_transfer_async (env : AsyncEnv) (g_null_buffer : List Nat)
    (request_type request value index : Nat) (data : DataPtr) (length : Nat)
    (timeout : Nat) : SiokuTransferResult × IOUSBDevRequestTO × List Nat :=
  let sub := sioku_transfer_substitute g_null_buffer data length
  let rto := sioku_transfer_request_to request_type request value index
    sub.1 length
  if !env.submitOk then
    (TRANSFER_RESULT_ERROR, rto, sub.2)
  else if !env.abortOk then
    (TRANSFER_RESULT_ERROR, rto, sub.2)
  else
    (async_transfer_callback env.callbackError env.callbackArg, rto, sub.2)

/-! ## Side-effect traces for the session lifecycle functions

Each call into IOKit or the run loop made by the lifecycle functions is
recorded as one `Act` event, in program order, so that the release
discipline of the spec can be stated over the trace of a run. -/

/-- One observable action of a lifecycle-function run. -/
inductive Act where
  | createPlugin (ok : Bool)
  | queryPluginInterface (ok : Bool)
  | destroyPlugin
  | releaseService (svc : Nat)
  | usbDeviceOpenSeize (ok : Bool)
  | getConfigDescriptor (ok : Bool)
  | setConfiguration (ok : Bool)
  | createEventSource (ok : Bool)
  | runLoopAddSource
  | usbDeviceClose
  | deviceRelease
  | createInterfaceIterator (ok : Bool)
  | iteratorNext (svc : Option Nat)
  | releaseIterator
  | usbInterfaceOpenSeize (ok : Bool)
  | setAlternateInterface (alt : Nat) (ok : Bool)
  | usbInterfaceClose
  | interfaceRelease
  | runLoopRemoveSource
  | releaseEventSource
  | delay (ms : Nat)
  | serviceMatchingCreate (ok : Bool)
  | getMatchingServices (ok : Bool)
deriving DecidableEq, Repr

/-- Number of events of a trace satisfying a predicate. -/
def countAct (p : Act → Bool) : List Act → Nat
  | [] => 0
  | a :: rest => (if p a then 1 else 0) + countAct p rest

/-- Recognises the release of the platform service with id `svc`. -/
def isReleaseService (svc : Nat) : Act → Bool
  | Act.releaseService s => s = svc
  | _ => false

/-- Recognises an iterator yield of the service with id `svc`. -/
def isIteratorNextSome (svc : Nat) : Act → Bool
  | Act.iteratorNext (some s) => s = svc
  | _ => false

/-- Recognises the destruction of the intermediate plugin object. -/
def isDestroyPlugin : Act → Bool
  | Act.destroyPlugin => true
  | _ => false

/-- Recognises a successful plugin creation. -/
def isCreatePluginOk : Act → Bool
  | Act.createPlugin true => true
  | _ => false

/-- Recognises a successful interface-iterator creation. -/
def isCreateIteratorOk : Act → Bool
  | Act.createInterfaceIterator true => true
  | _ => false

/-- Recognises the release of the interface-iterator object. -/
def isReleaseIterator : Act → Bool
  | Act.releaseIterator => true
  | _ => false

/-- Recognises a successful plugin interface query, i.e. the acquisition of
a resolved (device- or interface-level) handle. -/
def isQueryOk : Act → Bool
  | Act.queryPluginInterface true => true
  | _ => false

/-- Recognises `USBDeviceClose`. -/
def isDeviceClose : Act → Bool
  | Act.usbDeviceClose => true
  | _ => false

/-- Recognises the release of the resolved device handle. -/
def isDeviceRelease : Act → Bool
  | Act.deviceRelease => true
  | _ => false

/-- Recognises `USBInterfaceClose`. -/
def isInterfaceClose : Act → Bool
  | Act.usbInterfaceClose => true
  | _ => false

/-- Recognises the release of the resolved interface handle. -/
def isInterfaceRelease : Act → Bool
  | Act.interfaceRelease => true
  | _ => false

/-- Recognises a call of `SetAlternateInterface`. -/
def isSetAlternateInterface : Act → Bool
  | Act.setAlternateInterface _ _ => true
  | _ => false

/-- Recognises a delay of `ms` milliseconds. -/
def isDelay (ms : Nat) : Act → Bool
  | Act.delay m => m = ms
  | _ => false

/-- Holds when a `usbDeviceClose` occurs strictly before a `deviceRelease`
in the trace. -/
def deviceCloseBeforeRelease : List Act → Bool
  | [] => false
  | Act.usbDeviceClose :: rest => countAct isDeviceRelease rest != 0
  | _ :: rest => deviceCloseBeforeRelease rest

/-- Holds when a `usbInterfaceClose` occurs strictly before an
`interfaceRelease` in the trace. -/
def interfaceCloseBeforeRelease : List Act → Bool
  | [] => false
  | Act.usbInterfaceClose :: rest => countAct isInterfaceRelease rest != 0
  | _ :: rest => interfaceCloseBeforeRelease rest

/-! ## Platform interface resolver (sioku.c lines 63-78, Sioku.c lines
60-79) -/

/-- Outcomes of the two host calls the resolver makes: whether
`IOCreatePlugInInterfaceForService` succeeds and whether the plugin's
`QueryInterface` succeeds. -/
structure QueryEnv where
  createOk : Bool
  queryOk : Bool

/-- Embeds `IOQueryInterface` (sioku.c lines 63-78), equally
`IOQueryUSBInterface` (Sioku.c lines 60-79): create the intermediate
plugin for `service` (on failure release the service and fail), query it
for the desired interface, destroy the plugin, release the service, and
report the query's outcome.  Returns `some ()` exactly when a resolved
handle was produced, paired with the trace of the run. -/
def IOQueryInterface (env : QueryEnv) (service : Nat) :
    Option Unit × List Act :=
  if !env.createOk then
    (none, [Act.createPlugin false, Act.releaseService service])
  else
    ((if env.queryOk then some () else none),
      [Act.createPlugin true, Act.queryPluginInterface env.queryOk,
        Act.destroyPlugin, Act.releaseService service])

/-! ## Open device (sioku.c lines 122-149, Sioku.c lines 128-152) -/

/-- Outcomes of the host calls `sioku_open_device` makes: the resolver's
environment, then `USBDeviceOpenSeize`, `GetConfigurationDescriptorPtr`,
`SetConfiguration`, and `CreateDeviceAsyncEventSource`. -/
structure OpenDeviceEnv where
  query : QueryEnv
  openSeizeOk : Bool
  getConfigOk : Bool
  setConfigOk : Bool
  createEventSourceOk : Bool

/-- Embeds `sioku_open_device` (sioku.c lines 122-149), equally
`sioku_client_open_device` (Sioku.c lines 128-152): resolve the device
handle via `IOQueryInterface`, seize-open it (failure: goto cleanup, i.e.
release only), read the configuration descriptor, set the configuration,
create the async event source (failure of any of these: goto fail, i.e.
close then release), and on success register the event source with the
run loop.  Returns the boolean result and the trace. -/
def sioku_open_device (env : OpenDeviceEnv) (service : Nat) :
    Bool × List Act :=
  let q := IOQueryInterface env.query service
  match q.1 with
  | none => (false, q.2)
  | some _ =>
    if !env.openSeizeOk then
      (false, q.2 ++ [Act.usbDeviceOpenSeize false, Act.deviceRelease])
    else if !env.getConfigOk then
      (false, q.2 ++ [Act.usbDeviceOpenSeize true,
        Act.getConfigDescriptor false, Act.usbDeviceClose,
        Act.deviceRelease])
    else if !env.setConfigOk then
      (false, q.2 ++ [Act.usbDeviceOpenSeize true,
        Act.getConfigDescriptor true, Act.setConfiguration false,
        Act.usbDeviceClose, Act.deviceRelease])
    else if !env.createEventSourceOk then
      (false, q.2 ++ [Act.usbDeviceOpenSeize true,
        Act.getConfigDescriptor true, Act.setConfiguration true,
        Act.createEventSource false, Act.usbDeviceClose,
        Act.deviceRelease])
    else
      (true, q.2 ++ [Act.usbDeviceOpenSeize true,
        Act.getConfigDescriptor true, Act.setConfiguration true,
        Act.createEventSource true, Act.runLoopAddSource])

/-! ## Open interface (sioku.c lines 151-195, Sioku.c lines 154-193) -/

/-- Embeds the candidate-selection loop of `sioku_open_interface`
(sioku.c lines 165-173): `for (i = 0; i <= index; ++i)` calls
`IOIteratorNext`; a NULL yield just continues, at `i == index` a non-NULL
yield breaks with that service, and every earlier non-NULL yield is
released.  The first argument is `index - i` (iterations left after the
current one); the iterator's remaining yields are the list.  A drained
iterator keeps yielding NULL, so once the list is empty the loop exits
with `service == IO_OBJECT_NULL`.  Returns the selected service (if any)
and the loop's trace of yields and releases. -/
def interfaceIterLoop : Nat → List Nat → Option Nat × List Act
  | _, [] => (none, [Act.iteratorNext none])
  | 0, s :: _ => (some s, [Act.iteratorNext (some s)])
  | k + 1, s :: rest =>
    let r := interfaceIterLoop k rest
    (r.1, Act.iteratorNext (some s) :: Act.releaseService s :: r.2)

/-- Outcomes of the host calls `sioku_open_interface` makes: whether
`CreateInterfaceIterator` succeeds, the services the iterator yields in
order, the resolver's environment for the selected candidate, and whether
`USBInterfaceOpenSeize` and `SetAlternateInterface` succeed. -/
structure OpenInterfaceEnv where
  createIteratorOk : Bool
  services : List Nat
  query : QueryEnv
  openSeizeOk : Bool
  setAltOk : Bool

/-- Embeds `sioku_open_interface` (sioku.c lines 151-195), equally
`sioku_client_open_interface` (Sioku.c lines 154-193): create a wildcard
interface iterator (failure: return false), walk it to `index` releasing
skipped candidates, release the iterator, fail if nothing was selected,
resolve the interface handle via `IOQueryInterface` (which consumes the
selected service), seize-open it (failure: plain `return false`), then
apply `SetAlternateInterface` only when `alt_index == 1` — on its failure
close and release the interface handle.  The middle component records
whether the client's interface field holds a resolved handle when the
function returns. -/
def sioku_open_interface (env : OpenInterfaceEnv) (index alt_index : Nat) :
    Bool × Option Unit × List Act :=
  if !env.createIteratorOk then
    (false, none, [Act.createInterfaceIterator false])
  else
    let loop := interfaceIterLoop index env.services
    let tr0 := Act.createInterfaceIterator true ::
      (loop.2 ++ [Act.releaseIterator])
    match loop.1 with
    | none => (false, none, tr0)
    | some svc =>
      let q := IOQueryInterface env.query svc
      match q.1 with
      | none => (false, none, tr0 ++ q.2)
      | some _ =>
        if !env.openSeizeOk then
          (false, some (), tr0 ++ q.2 ++ [Act.usbInterfaceOpenSeize false])
        else if alt_index ≠ 1 then
          (true, some (), tr0 ++ q.2 ++ [Act.usbInterfaceOpenSeize true])
        else if env.setAltOk then
          (true, some (), tr0 ++ q.2 ++ [Act.usbInterfaceOpenSeize true,
            Act.setAlternateInterface alt_index true])
        else
          (false, some (), tr0 ++ q.2 ++ [Act.usbInterfaceOpenSeize true,
            Act.setAlternateInterface alt_index false,
            Act.usbInterfaceClose, Act.interfaceRelease])

/-! ## Close, disconnect (sioku.c lines 330-347, Sioku.c lines 332-351) -/

/-- Embeds `sioku_close_device` (sioku.c lines 330-337), equally
`sioku_client_close_device` (Sioku.c lines 332-339): unregister the event
source from the run loop, release it, close the device, release the device
handle.  The client's fields are not modified, so the function is the
identity on state paired with its trace. -/
def sioku_close_device_trace : List Act :=
  [Act.runLoopRemoveSource, Act.releaseEventSource, Act.usbDeviceClose,
    Act.deviceRelease]

/-- Embeds `sioku_close_interface` (sioku.c lines 339-342), equally
`sioku_client_close_interface` (Sioku.c lines 341-345): close the
interface, release the interface handle. -/
def sioku_close_interface_trace : List Act :=
  [Act.usbInterfaceClose, Act.interfaceRelease]

/-- Embeds `sioku_disconnect` (sioku.c lines 344-347), equally
`sioku_client_disconnect` (Sioku.c lines 347-351): call
`sioku_close_interface`, then `sioku_close_device`. -/
def sioku_disconnect_trace : List Act :=
  sioku_close_interface_trace ++ sioku_close_device_trace

/-- Recognises an event of interface teardown. -/
def isInterfaceTeardown : Act → Bool
  | Act.usbInterfaceClose => true
  | Act.interfaceRelease => true
  | _ => false

/-- Recognises an event of device teardown (including the event-source
unregistration performed by `sioku_close_device`). -/
def isDeviceTeardown : Act → Bool
  | Act.runLoopRemoveSource => true
  | Act.releaseEventSource => true
  | Act.usbDeviceClose => true
  | Act.deviceRelease => true
  | _ => false

/-! ## Connect (sioku.c lines 197-244, Sioku.c lines 195-242) -/

/-- `WAIT_RETRY_TIMEOUT` (sioku.c line 197), equally `wait_retry_timeout`
(Sioku.c line 195): the 200 ms delay between connect attempts. -/
def WAIT_RETRY_TIMEOUT : Nat := 200

/-- One candidate service of a connect iteration: its id and the outcomes
of the host calls `sioku_open_device` and `sioku_open_interface` would
make on it. -/
structure ConnectCandidate where
  service : Nat
  dev : OpenDeviceEnv
  iface : OpenInterfaceEnv

/-- Embeds the candidate loop of `sioku_connect` (sioku.c lines 218-233):
for each service the matching iterator yields, try `sioku_open_device`
(failure: release the candidate and continue), then `sioku_open_interface`
(failure: `sioku_close_device` and continue); on success break with
`success = true`.  An exhausted iterator ends the loop with
`success = false`. -/
def connectCandidates (index alt_index : Nat) :
    List ConnectCandidate → Bool × List Act
  | [] => (false, [Act.iteratorNext none])
  | c :: rest =>
    let d := sioku_open_device c.dev c.service
    if !d.1 then
      let r := connectCandidates index alt_index rest
      (r.1, Act.iteratorNext (some c.service) :: d.2 ++
        Act.releaseService c.service :: r.2)
    else
      let i := sioku_open_interface c.iface index alt_index
      if !i.1 then
        let r := connectCandidates index alt_index rest
        (r.1, Act.iteratorNext (some c.service) :: d.2 ++ i.2.2 ++
          sioku_close_device_trace ++ r.2)
      else
        (true, Act.iteratorNext (some c.service) :: d.2 ++ i.2.2)

/-- Outcomes of the host calls one iteration of the connect loop makes:
whether `IOServiceMatching` returns a dictionary (`matchesNull` says it
returned NULL), whether `IOServiceGetMatchingServices` succeeds, and the
candidate services the matching iterator yields. -/
structure ConnectIterEnv where
  matchesNull : Bool
  getMatchingOk : Bool
  candidates : List ConnectCandidate

/-- Result of one iteration of the connect loop: the function returns with
the given boolean, or delays and retries. -/
inductive ConnectStep where
  | finished (success : Bool)
  | retry
deriving DecidableEq, Repr

/-- Embeds one iteration of the loop of `sioku_connect` (sioku.c lines
202-241), equally `sioku_client_connect` (Sioku.c lines 205-239): if
`IOServiceMatching` returns NULL the loop breaks with `success` still
false; if `IOServiceGetMatchingServices` fails, delay 200 ms and retry;
otherwise run the candidate loop, release the iterator, and either break
with success or delay 200 ms and retry. -/
def sioku_connect_step (env : ConnectIterEnv) (index alt_index : Nat) :
    ConnectStep × List Act :=
  if env.matchesNull then
    (ConnectStep.finished false, [Act.serviceMatchingCreate false])
  else if !env.getMatchingOk then
    (ConnectStep.retry, [Act.serviceMatchingCreate true,
      Act.getMatchingServices false, Act.delay WAIT_RETRY_TIMEOUT])
  else
    let c := connectCandidates index alt_index env.candidates
    let base := Act.serviceMatchingCreate true ::
      Act.getMatchingServices true :: c.2 ++ [Act.releaseIterator]
    if c.1 then
      (ConnectStep.finished true, base)
    else
      (ConnectStep.retry, base ++ [Act.delay WAIT_RETRY_TIMEOUT])

/-- Embeds `sioku_connect` (sioku.c lines 199-244), equally
`sioku_client_connect` (Sioku.c lines 197-242), run for at most `fuel`
iterations of its unbounded loop against the stream `envs` of per-iteration
host behaviours: `some b` means the function returned `b` within `fuel`
iterations, `none` that it is still looping. -/
def sioku_connect_fuel : Nat → (Nat → ConnectIterEnv) → Nat → Nat →
    Option Bool
  | 0, _, _, _ => none
  | fuel + 1, envs, index, alt_index =>
    match (sioku_connect_step (envs 0) index alt_index).1 with
    | ConnectStep.finished b => some b
    | ConnectStep.retry =>
      sioku_connect_fuel fuel (fun i => envs (i + 1)) index alt_index

/-- Recognises the registration of the async event source with the run
loop. -/
def isRunLoopAddSource : Act → Bool
  | Act.runLoopAddSource => true
  | _ => false

/-! ## Theorems -/

/-- Counting over an appended trace splits. -/
theorem countAct_append (p : Act → Bool) (l1 l2 : List Act) :
    countAct p (l1 ++ l2) = countAct p l1 + countAct p l2 := by
  induction l1 with
  | nil => simp [countAct]
  | cons a rest ih => simp [countAct, ih]; omega

/-- C1: for every transport completion code, the classification functions
of both variants return `Ok` exactly on the four benign codes (success,
aborted, timeout, transaction-timeout), `Stall` exactly on the
pipe-stalled code, and `Error` on every other code; and both result
constructors pair the classification of the code with the given length. -/
theorem transfer_state_and_result_spec (error length : Nat) :
    (sioku_transfer_state_from_iokit error = SiokuTransferState.Ok ↔
      (error = kIOReturnSuccess ∨ error = kIOReturnAborted ∨
        error = kIOReturnTimeout ∨ error = kIOUSBTransactionTimeout)) ∧
    (sioku_transfer_state_from_iokit error = SiokuTransferState.Stall ↔
      error = kIOUSBPipeStalled) ∧
    (sioku_transfer_state_from_iokit error = SiokuTransferState.Error ↔
      ¬(error = kIOReturnSuccess ∨ error = kIOReturnAborted ∨
        error = kIOReturnTimeout ∨ error = kIOUSBTransactionTimeout ∨
        error = kIOUSBPipeStalled)) ∧
    sioku_transfer_state_from_error error =
      sioku_transfer_state_from_iokit error ∧
    sioku_transfer_result error length =
      ⟨sioku_transfer_state_from_iokit error, length⟩ ∧
    sioku_transfer_result_create error length =
      ⟨sioku_transfer_state_from_error error, length⟩ := by
  refine ⟨⟨?_, ?_⟩, ⟨?_, ?_⟩, ⟨?_, ?_⟩, rfl, rfl, rfl⟩
  · intro h
    by_contra hb
    unfold sioku_transfer_state_from_iokit at h
    rw [if_neg hb] at h
    split_ifs at h <;> simp at h
  · intro hb
    unfold sioku_transfer_state_from_iokit
    rw [if_pos hb]
  · intro h
    unfold sioku_transfer_state_from_iokit at h
    split_ifs at h with h1 h2 <;> first | exact h2 | simp at h
  · intro hs
    subst hs
    decide
  · intro h hcon
    rcases hcon with hb | hb | hb | hb | hb <;> subst hb <;> revert h <;>
      decide
  · intro hn
    push_neg at hn
    have hb : ¬(error = kIOReturnSuccess ∨ error = kIOReturnAborted ∨
        error = kIOReturnTimeout ∨ error = kIOUSBTransactionTimeout) := by
      rintro (h | h | h | h)
      · exact hn.1 h
      · exact hn.2.1 h
      · exact hn.2.2.1 h
      · exact hn.2.2.2.1 h
    unfold sioku_transfer_state_from_iokit
    rw [if_neg hb, if_neg hn.2.2.2.2]

/-- C5: if asynchronous submission fails, `sioku_transfer_async` returns
the fixed error outcome at once; if the post-timeout abort-pipe call
fails, it returns the same fixed error outcome; and that outcome carries
the `Error` state and the sentinel length regardless of input. -/
theorem transfer_async_error_paths (env : AsyncEnv) (buf : List Nat)
    (request_type request value index : Nat) (data : DataPtr)
    (length timeout : Nat) :
    (env.submitOk = false →
      (sioku_transfer_async env buf request_type request value index data
        length timeout).1 = TRANSFER_RESULT_ERROR) ∧
    (env.abortOk = false →
      (sioku_transfer_async env buf request_type request value index data
        length timeout).1 = TRANSFER_RESULT_ERROR) ∧
    TRANSFER_RESULT_ERROR =
      ⟨SiokuTransferState.Error, UINT32_MAX⟩ := by
  obtain ⟨s, a, ce, ca⟩ := env
  cases s <;> cases a <;>
    simp [sioku_transfer_async, TRANSFER_RESULT_ERROR]

/-- Witness for C5 at a concrete input: with both the submission and the
abort failing, the asynchronous transfer returns the fixed error
outcome. -/
theorem transfer_async_error_paths_witness :
    (sioku_transfer_async ⟨false, false, 0, 0⟩ g_null_buffer_initial 0 0 0 0
      DataPtr.null 0 0).1 = TRANSFER_RESULT_ERROR :=
  (transfer_async_error_paths ⟨false, false, 0, 0⟩ g_null_buffer_initial
    0 0 0 0 DataPtr.null 0 0).1 rfl

/-- C7: in both transfer functions, a NULL data pointer with positive
length makes the scratch buffer be zero-filled and substituted as the
data pointer; a non-NULL data pointer is never substituted (and the
scratch buffer is untouched); a NULL pointer with zero length is used
as-is. -/
theorem transfer_scratch_substitution (env : DeviceRequestEnv)
    (aenv : AsyncEnv) (buf : List Nat)
    (request_type request value index : Nat) (data : DataPtr)
    (length timeout : Nat) :
    (data = DataPtr.null → 0 < length →
      (sioku_transfer env buf request_type request value index data
        length).2.1.pData = DataPtr.scratch ∧
      (sioku_transfer env buf request_type request value index data
        length).2.2 = List.replicate NULL_BUFFER_SIZE 0 ∧
      (sioku_transfer_async aenv buf request_type request value index data
        length timeout).2.1.pData = DataPtr.scratch ∧
      (sioku_transfer_async aenv buf request_type request value index data
        length timeout).2.2 = List.replicate NULL_BUFFER_SIZE 0) ∧
    (data ≠ DataPtr.null →
      (sioku_transfer env buf request_type request value index data
        length).2.1.pData = data ∧
      (sioku_transfer env buf request_type request value index data
        length).2.2 = buf ∧
      (sioku_transfer_async aenv buf request_type request value index data
        length timeout).2.1.pData = data ∧
      (sioku_transfer_async aenv buf request_type request value index data
        length timeout).2.2 = buf) ∧
    (data = DataPtr.null → length = 0 →
      (sioku_transfer env buf request_type request value index data
        length).2.1.pData = DataPtr.null ∧
      (sioku_transfer_async aenv buf request_type request value index data
        length timeout).2.1.pData = DataPtr.null) := by
  obtain ⟨s, a, ce, ca⟩ := aenv
  refine ⟨?_, ?_, ?_⟩
  · rintro rfl hl
    cases s <;> cases a <;>
      simp [sioku_transfer, sioku_transfer_async,
        sioku_transfer_substitute, sioku_transfer_request_to, hl]
  · intro hd
    cases s <;> cases a <;>
      simp [sioku_transfer, sioku_transfer_async,
        sioku_transfer_substitute, sioku_transfer_request_to, hd]
  · rintro rfl rfl
    cases s <;> cases a <;>
      simp [sioku_transfer, sioku_transfer_async,
        sioku_transfer_substitute, sioku_transfer_request_to]

/-- Witness for C7 at a concrete input: a NULL pointer with length 5 gets
the zero-filled scratch buffer in both transfer functions. -/
theorem transfer_scratch_substitution_witness :
    (sioku_transfer ⟨0, 0⟩ g_null_buffer_initial 0 0 0 0 DataPtr.null
      5).2.1.pData = DataPtr.scratch ∧
    (sioku_transfer ⟨0, 0⟩ g_null_buffer_initial 0 0 0 0 DataPtr.null
      5).2.2 = List.replicate NULL_BUFFER_SIZE 0 ∧
    (sioku_transfer_async ⟨true, true, 0, 0⟩ g_null_buffer_initial 0 0 0 0
      DataPtr.null 5 0).2.1.pData = DataPtr.scratch ∧
    (sioku_transfer_async ⟨true, true, 0, 0⟩ g_null_buffer_initial 0 0 0 0
      DataPtr.null 5 0).2.2 = List.replicate NULL_BUFFER_SIZE 0 :=
  (transfer_scratch_substitution ⟨0, 0⟩ ⟨true, true, 0, 0⟩
    g_null_buffer_initial 0 0 0 0 DataPtr.null 5 0).1 rfl (by decide)

/-- C10: both transfer functions place only the low 16 bits of the
`size_t` length into the submitted request's wLength field, while the
scratch-buffer substitution still triggers on the untruncated
length. -/
theorem transfer_wlength_truncation (env : DeviceRequestEnv)
    (aenv : AsyncEnv) (buf : List Nat)
    (request_type request value index : Nat) (data : DataPtr)
    (length timeout : Nat) :
    (sioku_transfer env buf request_type request value index data
      length).2.1.wLength = length % 65536 ∧
    (sioku_transfer_async aenv buf request_type request value index data
      length timeout).2.1.wLength = length % 65536 ∧
    (data = DataPtr.null →
      (((sioku_transfer env buf request_type request value index data
        length).2.1.pData = DataPtr.scratch) ↔ 0 < length) ∧
      (((sioku_transfer_async aenv buf request_type request value index
        data length timeout).2.1.pData = DataPtr.scratch) ↔
          0 < length)) := by
  obtain ⟨s, a, ce, ca⟩ := aenv
  rcases Nat.eq_zero_or_pos length with hl | hl
  · subst hl
    cases data <;> cases s <;> cases a <;>
      simp [sioku_transfer, sioku_transfer_async,
        sioku_transfer_substitute, sioku_transfer_request_to,
        OSSwapLittleToHostInt16, toUInt16Nat]
  · cases data <;> cases s <;> cases a <;>
      simp [sioku_transfer, sioku_transfer_async,
        sioku_transfer_substitute, sioku_transfer_request_to,
        OSSwapLittleToHostInt16, toUInt16Nat, hl]

/-- Witness for C10 at a concrete input: length 70000 with a NULL pointer
is submitted as wLength 4464 = 70000 mod 65536 and still triggers the
scratch-buffer substitution. -/
theorem transfer_wlength_truncation_witness :
    (sioku_transfer ⟨0, 0⟩ g_null_buffer_initial 0 0 0 0 DataPtr.null
      70000).2.1.wLength = 70000 % 65536 ∧
    ((sioku_transfer ⟨0, 0⟩ g_null_buffer_initial 0 0 0 0 DataPtr.null
      70000).2.1.pData = DataPtr.scratch ↔ 0 < 70000) :=
  ⟨(transfer_wlength_truncation ⟨0, 0⟩ ⟨true, true, 0, 0⟩
      g_null_buffer_initial 0 0 0 0 DataPtr.null 70000 0).1,
    ((transfer_wlength_truncation ⟨0, 0⟩ ⟨true, true, 0, 0⟩
      g_null_buffer_initial 0 0 0 0 DataPtr.null 70000 0).2.2 rfl).1⟩

/-- C8: on every exit path of the platform interface resolver, the
original service reference is released exactly once; the intermediate
plugin object is destroyed exactly once whenever it was created (and
never otherwise); and a resolved handle is produced exactly on the
success path. -/
theorem query_interface_release_discipline (env : QueryEnv)
    (service : Nat) :
    countAct (isReleaseService service)
      (IOQueryInterface env service).2 = 1 ∧
    countAct isDestroyPlugin (IOQueryInterface env service).2 =
      (if env.createOk then 1 else 0) ∧
    countAct isCreatePluginOk (IOQueryInterface env service).2 =
      (if env.createOk then 1 else 0) ∧
    ((IOQueryInterface env service).1 = some () ↔
      env.createOk = true ∧ env.queryOk = true) := by
  obtain ⟨c, q⟩ := env
  cases c <;> cases q <;>
    simp [IOQueryInterface, countAct, isReleaseService, isDestroyPlugin,
      isCreatePluginOk]

/-- C6: in `sioku_open_device`, once the device handle is resolved, a
seize-open failure releases the handle without closing; a failure of the
configuration-descriptor read, the configuration application, or the
event-source creation closes the device and then releases the handle; and
only on success is the event source registered and true returned. -/
theorem open_device_unwind (env : OpenDeviceEnv) (service : Nat)
    (hc : env.query.createOk = true) (hq : env.query.queryOk = true) :
    (env.openSeizeOk = false →
      (sioku_open_device env service).1 = false ∧
      countAct isDeviceRelease (sioku_open_device env service).2 = 1 ∧
      countAct isDeviceClose (sioku_open_device env service).2 = 0) ∧
    (env.openSeizeOk = true →
      ¬(env.getConfigOk = true ∧ env.setConfigOk = true ∧
        env.createEventSourceOk = true) →
      (sioku_open_device env service).1 = false ∧
      countAct isDeviceClose (sioku_open_device env service).2 = 1 ∧
      countAct isDeviceRelease (sioku_open_device env service).2 = 1 ∧
      deviceCloseBeforeRelease (sioku_open_device env service).2 = true) ∧
    (env.openSeizeOk = true → env.getConfigOk = true →
      env.setConfigOk = true → env.createEventSourceOk = true →
      (sioku_open_device env service).1 = true ∧
      countAct isDeviceClose (sioku_open_device env service).2 = 0 ∧
      countAct isDeviceRelease (sioku_open_device env service).2 = 0 ∧
      countAct isRunLoopAddSource (sioku_open_device env service).2
        = 1) := by
  obtain ⟨⟨c, q⟩, o, g, s, e⟩ := env
  simp only at hc hq
  subst hc
  subst hq
  cases o <;> cases g <;> cases s <;> cases e <;>
    simp [sioku_open_device, IOQueryInterface, countAct, isDeviceClose,
      isDeviceRelease, isRunLoopAddSource, deviceCloseBeforeRelease]

/-- Witness for C6 at concrete inputs: a seize-open failure releases the
resolved handle without closing the device. -/
theorem open_device_unwind_witness :
    (sioku_open_device ⟨⟨true, true⟩, false, true, true, true⟩ 3).1 =
      false ∧
    countAct isDeviceRelease
      (sioku_open_device ⟨⟨true, true⟩, false, true, true, true⟩ 3).2 =
        1 ∧
    countAct isDeviceClose
      (sioku_open_device ⟨⟨true, true⟩, false, true, true, true⟩ 3).2 =
        0 :=
  (open_device_unwind ⟨⟨true, true⟩, false, true, true, true⟩ 3 rfl
    rfl).1 rfl

/-- A predicate false on every yield and service-release event counts zero
events in a candidate-selection loop trace. -/
theorem countAct_interfaceIterLoop_zero (p : Act → Bool)
    (h1 : ∀ s, p (Act.iteratorNext (some s)) = false)
    (h2 : p (Act.iteratorNext none) = false)
    (h3 : ∀ s, p (Act.releaseService s) = false)
    (k : Nat) (svcs : List Nat) :
    countAct p (interfaceIterLoop k svcs).2 = 0 := by
  induction svcs generalizing k with
  | nil => simp [interfaceIterLoop, countAct, h2]
  | cons s rest ih =>
    cases k with
    | zero => simp [interfaceIterLoop, countAct, h1]
    | succ k => simp [interfaceIterLoop, countAct, h1, h3, ih]

/-- In a candidate-selection loop trace, each service id is yielded as
often as it is released, plus once more if it is the selected one. -/
theorem interfaceIterLoop_balance (s : Nat) (k : Nat) (svcs : List Nat) :
    countAct (isIteratorNextSome s) (interfaceIterLoop k svcs).2 =
      countAct (isReleaseService s) (interfaceIterLoop k svcs).2 +
        (match (interfaceIterLoop k svcs).1 with
          | some t => if t = s then 1 else 0
          | none => 0) := by
  induction svcs generalizing k with
  | nil =>
    simp [interfaceIterLoop, countAct, isIteratorNextSome, isReleaseService]
  | cons a rest ih =>
    cases k with
    | zero =>
      by_cases ha : a = s <;>
        simp [interfaceIterLoop, countAct, isIteratorNextSome,
          isReleaseService, ha]
    | succ k =>
      by_cases ha : a = s <;>
        simp [interfaceIterLoop, countAct, isIteratorNextSome,
          isReleaseService, ha, ih] <;> omega

/-- C3: in `sioku_open_interface`, after a successful exclusive open of
the interface, requesting alternate setting 1 with a failing
select-alternate-setting call closes and releases the interface handle
and reports failure, while any other requested value skips the
select-alternate-setting call entirely and reports success. -/
theorem open_interface_alt_setting_asymmetry (env : OpenInterfaceEnv)
    (index alt_index : Nat)
    (hit : env.createIteratorOk = true)
    (hsel : (interfaceIterLoop index env.services).1.isSome = true)
    (hc : env.query.createOk = true) (hq : env.query.queryOk = true)
    (ho : env.openSeizeOk = true) :
    (alt_index = 1 → env.setAltOk = false →
      (sioku_open_interface env index alt_index).1 = false ∧
      countAct isInterfaceClose
        (sioku_open_interface env index alt_index).2.2 = 1 ∧
      countAct isInterfaceRelease
        (sioku_open_interface env index alt_index).2.2 = 1 ∧
      ∃ pre, (sioku_open_interface env index alt_index).2.2 =
        pre ++ [Act.usbInterfaceClose, Act.interfaceRelease]) ∧
    (alt_index ≠ 1 →
      (sioku_open_interface env index alt_index).1 = true ∧
      countAct isSetAlternateInterface
        (sioku_open_interface env index alt_index).2.2 = 0) := by
  obtain ⟨ci, svcs, ⟨qc, qq⟩, os, sa⟩ := env
  simp only at hit hc hq ho hsel
  subst hit
  subst hc
  subst hq
  subst ho
  obtain ⟨svc, hsvc⟩ := Option.isSome_iff_exists.mp hsel
  have hzc := countAct_interfaceIterLoop_zero isInterfaceClose
    (fun s => rfl) rfl (fun s => rfl) index svcs
  have hzr := countAct_interfaceIterLoop_zero isInterfaceRelease
    (fun s => rfl) rfl (fun s => rfl) index svcs
  have hza := countAct_interfaceIterLoop_zero isSetAlternateInterface
    (fun s => rfl) rfl (fun s => rfl) index svcs
  constructor
  · rintro rfl rfl
    refine ⟨?_, ?_, ?_, ?_⟩
    · simp [sioku_open_interface, IOQueryInterface, hsvc]
    · simp [sioku_open_interface, IOQueryInterface, hsvc, countAct_append,
        countAct, isInterfaceClose, hzc]
    · simp [sioku_open_interface, IOQueryInterface, hsvc, countAct_append,
        countAct, isInterfaceRelease, hzr]
    · refine ⟨Act.createInterfaceIterator true ::
        ((interfaceIterLoop index svcs).2 ++ [Act.releaseIterator]) ++
        [Act.createPlugin true, Act.queryPluginInterface true,
          Act.destroyPlugin, Act.releaseService svc] ++
        [Act.usbInterfaceOpenSeize true,
          Act.setAlternateInterface 1 false], ?_⟩
      simp [sioku_open_interface, IOQueryInterface, hsvc]
  · intro hne
    constructor
    · simp [sioku_open_interface, IOQueryInterface, hsvc, hne]
    · simp [sioku_open_interface, IOQueryInterface, hsvc, hne,
        countAct_append, countAct, isSetAlternateInterface, hza]

/-- Witness for C3 at concrete inputs: with one candidate service, a
working resolver and open, alternate setting 2 and a failing
select-alternate-setting call still reports success without ever calling
select-alternate-setting. -/
theorem open_interface_alt_setting_asymmetry_witness :
    (sioku_open_interface ⟨true, [7], ⟨true, true⟩, true, false⟩ 0 2).1 =
      true ∧
    countAct isSetAlternateInterface
      (sioku_open_interface ⟨true, [7], ⟨true, true⟩, true,
        false⟩ 0 2).2.2 = 0 :=
  (open_interface_alt_setting_asymmetry
    ⟨true, [7], ⟨true, true⟩, true, false⟩ 0 2 rfl (by decide) rfl rfl
    rfl).2 (by decide)

/-- In every run of `sioku_open_interface`, each service id obtained from
the interface iterator is released exactly as often as it was obtained:
skipped candidates in the selection loop, the selected candidate inside
the resolver. -/
theorem open_interface_service_balance (env : OpenInterfaceEnv)
    (index alt_index s : Nat) :
    countAct (isIteratorNextSome s)
      (sioku_open_interface env index alt_index).2.2 =
    countAct (isReleaseService s)
      (sioku_open_interface env index alt_index).2.2 := by
  obtain ⟨ci, svcs, ⟨qc, qq⟩, os, sa⟩ := env
  have hb := interfaceIterLoop_balance s index svcs
  cases ci
  · simp [sioku_open_interface, countAct, isIteratorNextSome,
      isReleaseService]
  · rcases hsvc : (interfaceIterLoop index svcs).1 with _ | svc
    · rw [hsvc] at hb
      simp at hb
      cases qc <;> cases qq <;> cases os <;> cases sa <;>
        by_cases ha : alt_index = 1 <;>
        simp [sioku_open_interface, IOQueryInterface, hsvc, ha,
          countAct_append, countAct, isIteratorNextSome,
          isReleaseService] <;> omega
    · rw [hsvc] at hb
      by_cases hss : svc = s
      · subst hss
        simp at hb
        cases qc <;> cases qq <;> cases os <;> cases sa <;>
          by_cases ha : alt_index = 1 <;>
          simp [sioku_open_interface, IOQueryInterface, hsvc, ha,
            countAct_append, countAct, isIteratorNextSome,
            isReleaseService] <;> omega
      · simp [hss] at hb
        cases qc <;> cases qq <;> cases os <;> cases sa <;>
          by_cases ha : alt_index = 1 <;>
          simp [sioku_open_interface, IOQueryInterface, hsvc, ha, hss,
            countAct_append, countAct, isIteratorNextSome,
            isReleaseService] <;> omega

/-- In every run of `sioku_open_interface`, the interface-iterator object
is released exactly as often as it was created. -/
theorem open_interface_iterator_balance (env : OpenInterfaceEnv)
    (index alt_index : Nat) :
    countAct isCreateIteratorOk
      (sioku_open_interface env index alt_index).2.2 =
    countAct isReleaseIterator
      (sioku_open_interface env index alt_index).2.2 := by
  obtain ⟨ci, svcs, ⟨qc, qq⟩, os, sa⟩ := env
  have hz1 := countAct_interfaceIterLoop_zero isCreateIteratorOk
    (fun s => rfl) rfl (fun s => rfl) index svcs
  have hz2 := countAct_interfaceIterLoop_zero isReleaseIterator
    (fun s => rfl) rfl (fun s => rfl) index svcs
  cases ci
  · simp [sioku_open_interface, countAct, isCreateIteratorOk,
      isReleaseIterator]
  · rcases hsvc : (interfaceIterLoop index svcs).1 with _ | svc <;>
      cases qc <;> cases qq <;> cases os <;> cases sa <;>
      by_cases ha : alt_index = 1 <;>
      simp [sioku_open_interface, IOQueryInterface, hsvc, ha,
        countAct_append, countAct, isCreateIteratorOk, isReleaseIterator,
        hz1, hz2]

/-- Counterexample to C4 as stated: on the exclusive-open failure path of
`sioku_open_interface` (one candidate, resolver succeeds, seize-open
fails), the function fails after acquiring the resolved interface handle,
yet the trace contains no release of that handle. -/
theorem open_interface_leak_on_open_seize_failure :
    (sioku_open_interface ⟨true, [7], ⟨true, true⟩, false, true⟩ 0 0).1 =
      false ∧
    countAct isQueryOk
      (sioku_open_interface ⟨true, [7], ⟨true, true⟩, false, true⟩ 0
        0).2.2 = 1 ∧
    countAct isInterfaceRelease
      (sioku_open_interface ⟨true, [7], ⟨true, true⟩, false, true⟩ 0
        0).2.2 = 0 := by decide

/-- C4 (amended): on every failing execution of `sioku_open_interface`,
the skipped candidates, the iterator, and the selected candidate service
are all released; the resolved interface handle, when it was acquired, is
closed and released exactly once on the alternate-setting failure path,
but on the exclusive-open failure path it is not released and remains
held in the client. -/
theorem open_interface_failure_unwind (env : OpenInterfaceEnv)
    (index alt_index : Nat)
    (hfail : (sioku_open_interface env index alt_index).1 = false) :
    (∀ s, countAct (isIteratorNextSome s)
        (sioku_open_interface env index alt_index).2.2 =
      countAct (isReleaseService s)
        (sioku_open_interface env index alt_index).2.2) ∧
    countAct isCreateIteratorOk
        (sioku_open_interface env index alt_index).2.2 =
      countAct isReleaseIterator
        (sioku_open_interface env index alt_index).2.2 ∧
    (countAct isQueryOk
        (sioku_open_interface env index alt_index).2.2 = 1 →
      (env.openSeizeOk = false ∧
        countAct isInterfaceRelease
          (sioku_open_interface env index alt_index).2.2 = 0) ∨
      (countAct isInterfaceClose
          (sioku_open_interface env index alt_index).2.2 = 1 ∧
        countAct isInterfaceRelease
          (sioku_open_interface env index alt_index).2.2 = 1)) := by
  refine ⟨fun s => open_interface_service_balance env index alt_index s,
    open_interface_iterator_balance env index alt_index, ?_⟩
  intro hquery
  obtain ⟨ci, svcs, ⟨qc, qq⟩, os, sa⟩ := env
  have hzq := countAct_interfaceIterLoop_zero isQueryOk
    (fun s => rfl) rfl (fun s => rfl) index svcs
  have hzr := countAct_interfaceIterLoop_zero isInterfaceRelease
    (fun s => rfl) rfl (fun s => rfl) index svcs
  have hzc := countAct_interfaceIterLoop_zero isInterfaceClose
    (fun s => rfl) rfl (fun s => rfl) index svcs
  cases ci
  · simp [sioku_open_interface, countAct, isQueryOk] at hquery
  · rcases hsvc : (interfaceIterLoop index svcs).1 with _ | svc
    · simp [sioku_open_interface, hsvc, countAct_append, countAct,
        isQueryOk, hzq] at hquery
    · cases qc
      · simp [sioku_open_interface, IOQueryInterface, hsvc,
          countAct_append, countAct, isQueryOk, hzq] at hquery
      · cases qq
        · simp [sioku_open_interface, IOQueryInterface, hsvc,
            countAct_append, countAct, isQueryOk, hzq] at hquery
        · cases os
          · left
            refine ⟨rfl, ?_⟩
            simp [sioku_open_interface, IOQueryInterface, hsvc,
              countAct_append, countAct, isInterfaceRelease, hzr]
          · by_cases ha : alt_index = 1
            · cases sa
              · right
                subst ha
                constructor
                · simp [sioku_open_interface, IOQueryInterface, hsvc,
                    countAct_append, countAct, isInterfaceClose, hzc]
                · simp [sioku_open_interface, IOQueryInterface, hsvc,
                    countAct_append, countAct, isInterfaceRelease, hzr]
              · exfalso
                subst ha
                simp [sioku_open_interface, IOQueryInterface, hsvc]
                  at hfail
            · exfalso
              simp [sioku_open_interface, IOQueryInterface, hsvc, ha]
                at hfail

/-- Witness for C4 (amended) at concrete inputs: on the
alternate-setting failure path, the single obtained candidate is balanced
by its release. -/
theorem open_interface_failure_unwind_witness :
    countAct (isIteratorNextSome 7)
      (sioku_open_interface ⟨true, [7], ⟨true, true⟩, true,
        false⟩ 0 1).2.2 =
    countAct (isReleaseService 7)
      (sioku_open_interface ⟨true, [7], ⟨true, true⟩, true,
        false⟩ 0 1).2.2 :=
  (open_interface_failure_unwind ⟨true, [7], ⟨true, true⟩, true, false⟩
    0 1 (by decide)).1 7

/-- One iteration of the connect loop ends the function with a failure
result only when `IOServiceMatching` returned NULL. -/
theorem connect_step_finished_false (env : ConnectIterEnv)
    (index alt_index : Nat)
    (h : (sioku_connect_step env index alt_index).1 =
      ConnectStep.finished false) :
    env.matchesNull = true := by
  obtain ⟨mn, gm, cands⟩ := env
  cases mn
  · cases gm
    · simp [sioku_connect_step] at h
    · by_cases hc : (connectCandidates index alt_index cands).1 <;>
        simp [sioku_connect_step, hc] at h
  · rfl

/-- Counterexample to C2 as stated: when `IOServiceMatching` returns NULL
on the first iteration, `sioku_connect` terminates at once and returns
failure. -/
theorem connect_returns_failure_on_null_matching_dict :
    sioku_connect_fuel 1 (fun _ => (⟨true, true, []⟩ : ConnectIterEnv))
      0 0 = some false := rfl

/-- C2 (amended): `sioku_connect` can return failure only because a
matching-dictionary creation (`IOServiceMatching`) returned NULL on some
iteration; every other failure of an iteration — a failed
matching-services request, failing candidates, or an exhausted candidate
list — makes the iteration delay 200 ms and restart the loop. -/
theorem connect_failure_only_null_dict (fuel : Nat)
    (envs : Nat → ConnectIterEnv) (index alt_index : Nat) :
    (sioku_connect_fuel fuel envs index alt_index = some false →
      ∃ k, k < fuel ∧ (envs k).matchesNull = true) ∧
    (∀ env : ConnectIterEnv, env.matchesNull = false →
      (sioku_connect_step env index alt_index).1 =
        ConnectStep.finished true ∨
      ((sioku_connect_step env index alt_index).1 = ConnectStep.retry ∧
        0 < countAct (isDelay WAIT_RETRY_TIMEOUT)
          (sioku_connect_step env index alt_index).2)) := by
  constructor
  · induction fuel generalizing envs with
    | zero =>
      intro h
      simp [sioku_connect_fuel] at h
    | succ n ih =>
      intro h
      unfold sioku_connect_fuel at h
      cases hstep : (sioku_connect_step (envs 0) index alt_index).1 with
      | finished b =>
        rw [hstep] at h
        simp at h
        subst h
        exact ⟨0, Nat.succ_pos n,
          connect_step_finished_false (envs 0) index alt_index hstep⟩
      | retry =>
        rw [hstep] at h
        obtain ⟨k, hk, hm⟩ := ih (fun i => envs (i + 1)) h
        exact ⟨k + 1, by omega, hm⟩
  · intro env hmn
    obtain ⟨mn, gm, cands⟩ := env
    simp only at hmn
    subst hmn
    cases gm
    · right
      exact ⟨rfl, by simp [sioku_connect_step, countAct, isDelay]⟩
    · by_cases hc : (connectCandidates index alt_index cands).1
      · left
        simp [sioku_connect_step, hc]
      · right
        constructor
        · simp [sioku_connect_step, hc]
        · simp [sioku_connect_step, hc, countAct_append, countAct,
            isDelay]

/-- Witness for C2 (amended) at concrete inputs: a one-iteration run that
returned failure indeed had a NULL matching dictionary. -/
theorem connect_failure_only_null_dict_witness :
    ∃ k, k < 1 ∧
      ((fun _ : Nat => (⟨true, true, []⟩ : ConnectIterEnv)) k).matchesNull
        = true :=
  (connect_failure_only_null_dict 1 (fun _ => ⟨true, true, []⟩) 0 0).1 rfl

/-- C9: `sioku_disconnect` is exactly close-interface followed by
close-device, and every interface-teardown event precedes every
device-teardown event in its side-effect sequence. -/
theorem disconnect_composition :
    sioku_disconnect_trace =
      sioku_close_interface_trace ++ sioku_close_device_trace ∧
    sioku_close_interface_trace.all isInterfaceTeardown = true ∧
    sioku_close_device_trace.all isDeviceTeardown = true := by decide
